import Mathlib

/-!
Verification of the schedule lifecycle and stock-ledger engine of
`src/app.py` (a Flask application over PostgreSQL).

The relational store is embedded shallowly: each table is a list of rows,
an SQL `UPDATE ... WHERE id = %s` is a map over the rows of the table, and
a `SELECT ... WHERE id = %s` is `List.find?`.  The route
`update_schedule_status` (lines 320-355 of `src/app.py`) is translated
statement by statement, including its transaction behaviour: work inside
the `with conn.cursor()` block is pending until `conn.commit()` at line 350,
`conn.rollback()` in the `except` branch discards pending work, and — this
is the crucial detail — the call to `log_activity` at lines 345/347 runs
`execute_query`, which issues `conn.commit()` (line 211) on the *same*
connection, committing everything pending at that point mid-route.

Storage failures are modelled by an optional fail point (`Option Step`)
naming the statement at which the driver raises; the route then takes the
`except` path: rollback to the last committed state and return the
500 response.  `failAt = none` is the failure-free run.
-/

/-- Row of the `ports` or `plants` table (the columns the engine touches). -/
structure Entity where
  id : Nat
  name : String
  capacity : Int
  current_stock : Int
deriving DecidableEq

/-- Row of the `schedules` table. -/
structure Schedule where
  id : Nat
  type : String
  supplier_id : Option Nat
  port_id : Option Nat
  plant_id : Option Nat
  vessel_id : Option Nat
  rake_id : Option Nat
  quantity : Int
  scheduled_date : String
  status : String
  created_by : String
deriving DecidableEq

/-- Row of the append-only `user_activities` table. -/
structure ActivityRecord where
  user_email : String
  action : String
  details : String
deriving DecidableEq

/-- The slice of the database state the stock mutation engine reads and writes. -/
structure DB where
  ports : List Entity
  plants : List Entity
  schedules : List Schedule
  user_activities : List ActivityRecord
deriving DecidableEq

/-- Role check `can_edit_data` (src/app.py line 221). -/
def can_edit_data (user_role : String) : Bool :=
  ["admin", "owner", "manager"].contains user_role

/-- Role check `is_owner` (src/app.py line 224). -/
def is_owner (user_role : String) : Bool :=
  ["admin", "owner"].contains user_role

/-- The five recognized status values (src/app.py line 326). -/
def VALID_STATUSES : List String :=
  ["scheduled", "in-progress", "delayed", "completed", "canceled"]

/-- SQL `UPDATE <table> SET current_stock = current_stock + delta WHERE id = eid`
for a ports/plants table.  A NULL id (`eid = none`) matches no row, as in SQL. -/
def update_stock (rows : List Entity) (delta : Int) (eid : Option Nat) : List Entity :=
  rows.map fun e =>
    if some e.id = eid then { e with current_stock := e.current_stock + delta } else e

/-- SQL `UPDATE schedules SET status = %s WHERE id = %s` (src/app.py line 349). -/
def set_status (rows : List Schedule) (sid : Nat) (st : String) : List Schedule :=
  rows.map fun s => if s.id = sid then { s with status := st } else s

/-- SQL `SELECT * FROM schedules WHERE id = %s` (src/app.py line 332). -/
def find_schedule (db : DB) (sid : Nat) : Option Schedule :=
  db.schedules.find? fun s => s.id = sid

/-- The INSERT performed by `log_activity` (src/app.py lines 215-219). -/
def insert_activity (db : DB) (email action details : String) : DB :=
  { db with user_activities := db.user_activities ++ [⟨email, action, details⟩] }

/-- Outcome of the `update_schedule_status` route, one constructor per
`return` site (src/app.py lines 323, 327, 334, 336, 351, 355). -/
inductive UpdateResult
  | unauthorized
  | invalidStatus
  | notFound
  | invalidTransition
  | ok
  | internalError
deriving DecidableEq

/-- The fallible statements executed inside the route's `try` block, in
program order: the one or two stock UPDATEs (line 341 resp. 343-344), the
activity INSERT and the `conn.commit()` inside `execute_query`
(lines 217, 211) reached through `log_activity`, the schedules UPDATE
(line 349) and the final `conn.commit()` (line 350). -/
inductive Step
  | updFirstStock
  | updSecondStock
  | insertActivityRow
  | commitInActivity
  | updScheduleRow
  | commitFinal
deriving DecidableEq

/-- Whether a given fallible statement is reached on a run that got past the
terminal-status check: the stock UPDATEs run only when completing a schedule
of the matching type; the remaining four statements always run. -/
def step_executed (schedule : Schedule) (new_status : String) : Step → Bool
  | Step.updFirstStock =>
      new_status == "completed" &&
        (schedule.type == "vessel-to-port" || schedule.type == "port-to-plant")
  | Step.updSecondStock =>
      new_status == "completed" && schedule.type == "port-to-plant"
  | _ => true

/-- Stock effect of completing a schedule (src/app.py lines 338-344):
`vessel-to-port` adds the quantity to the port row; `port-to-plant`
subtracts it from the port row and adds it to the plant row; any other
type falls through the `if`/`elif` with no stock effect. -/
def completed_stock_writes (db : DB) (schedule : Schedule) : DB :=
  if schedule.type = "vessel-to-port" then
    { db with ports := update_stock db.ports schedule.quantity schedule.port_id }
  else if schedule.type = "port-to-plant" then
    { db with
      ports := update_stock db.ports (-schedule.quantity) schedule.port_id
      plants := update_stock db.plants schedule.quantity schedule.plant_id }
  else db

/-- Text of the activity record written by the route (lines 345 and 347;
the surrounding quote characters of the original f-string are elided). -/
def activity_details (sid : Nat) (new_status : String) : String :=
  if new_status = "completed" then
    "Completed schedule #" ++ toString sid ++ " and updated stock."
  else
    "Updated schedule #" ++ toString sid ++ " to " ++ new_status ++ "."

/-- Pending state right after `log_activity` returns: the stock writes (when
completing) plus the activity row.  Because `execute_query` issues
`conn.commit()` (line 211) on the shared connection, this state is COMMITTED
at that point, before the schedules UPDATE of line 349 runs. -/
def committed_after_activity (db : DB) (user : String) (sid : Nat)
    (new_status : String) (schedule : Schedule) : DB :=
  insert_activity
    (if new_status = "completed" then completed_stock_writes db schedule else db)
    user "update_status" (activity_details sid new_status)

/-- Final state of a failure-free run: the post-activity state with the
schedule's status written (line 349) and the final commit applied. -/
def apply_transition (db : DB) (user : String) (sid : Nat)
    (new_status : String) (schedule : Schedule) : DB :=
  let p2 := committed_after_activity db user sid new_status schedule
  { p2 with schedules := set_status p2.schedules sid new_status }

/-- The route `update_schedule_status` (src/app.py lines 320-355), translated
statement by statement.  An absent session is modelled by a role failing
`can_edit_data`.  `failAt` injects a storage failure at the named statement;
the `except` branch (lines 352-355) rolls back to the last committed state
and returns the 500 response.  A failure at the schedules UPDATE or at the
final commit rolls back only to `committed_after_activity`, because the
`conn.commit()` inside `log_activity` already committed everything pending. -/
def update_schedule_status (db : DB) (user role : String) (schedule_id : Nat)
    (new_status : String) (failAt : Option Step) : DB × UpdateResult :=
  if ¬ can_edit_data role then (db, UpdateResult.unauthorized)
  else if ¬ VALID_STATUSES.contains new_status then (db, UpdateResult.invalidStatus)
  else
    match find_schedule db schedule_id with
    | none => (db, UpdateResult.notFound)
    | some schedule =>
      if schedule.status = "completed" ∨ schedule.status = "canceled" then
        (db, UpdateResult.invalidTransition)
      else
        match failAt with
        | none => (apply_transition db user schedule_id new_status schedule, UpdateResult.ok)
        | some st =>
          if step_executed schedule new_status st then
            match st with
            | Step.updScheduleRow =>
                (committed_after_activity db user schedule_id new_status schedule,
                 UpdateResult.internalError)
            | Step.commitFinal =>
                (committed_after_activity db user schedule_id new_status schedule,
                 UpdateResult.internalError)
            | _ => (db, UpdateResult.internalError)
          else (apply_transition db user schedule_id new_status schedule, UpdateResult.ok)

/-- Outcome of the `export_data` route (src/app.py lines 460-470). -/
inductive ExportResult
  | redirectLogin
  | invalidDataType
  | csvFile (table : String)
deriving DecidableEq

/-- The two exportable table identifiers (src/app.py line 463). -/
def EXPORT_TABLES : List String := ["schedules", "stock_levels"]

/-- The route `export_data` (src/app.py lines 460-470).  The second component
records, in order, the SQL queries the route hands to `execute_query`; the
guard of line 463 returns before any query is issued.  CSV serialization of
the fetched rows is out of scope, so the success value carries the table
exported. -/
def export_data (loggedIn : Bool) (data_type : String) : ExportResult × List String :=
  if ¬ loggedIn then (ExportResult.redirectLogin, [])
  else if ¬ EXPORT_TABLES.contains data_type then (ExportResult.invalidDataType, [])
  else (ExportResult.csvFile data_type, ["SELECT * FROM " ++ data_type])

/-!
Read-committed model of two concurrent `update_schedule_status` requests
completing the same schedule.  The route issues a plain `SELECT` (line 332,
no `FOR UPDATE`) and later `UPDATE`s with no status re-check, so under
PostgreSQL read committed each request's SELECT observes the committed
status at its own read time, and a request whose SELECT observed a
non-terminal status applies its whole write set when it commits — the
relative stock UPDATE (`current_stock = current_stock + %s`) is applied on
top of the latest committed value.  A request that observed a terminal
status returns the 400 response and writes nothing.
-/

/-- Interleaving alphabet for two concurrent requests on one schedule:
each request performs its SELECT (`read`) and then commits its
transaction (`commit`). -/
inductive ConcAction
  | read1
  | read2
  | commit1
  | commit2
deriving DecidableEq

/-- Shared committed database plus each request's view of the schedule row
as observed by its SELECT (`none` = not yet read). -/
structure ConcState where
  db : DB
  obs1 : Option Schedule
  obs2 : Option Schedule
deriving DecidableEq

/-- Write set a completing request applies at commit, given the schedule row
its SELECT observed: nothing if the observed status was terminal (the route
returned at line 336), otherwise the stock delta, the activity row and the
status write of lines 338-349. -/
def commit_transition (db : DB) (user : String) (sid : Nat)
    (obs : Option Schedule) : DB :=
  match obs with
  | none => db
  | some s =>
    if s.status = "completed" ∨ s.status = "canceled" then db
    else
      let p2 := insert_activity (completed_stock_writes db s)
        user "update_status" (activity_details sid "completed")
      { p2 with schedules := set_status p2.schedules sid "completed" }

/-- One interleaving step of the two concurrent completion requests. -/
def conc_step (sid : Nat) (u1 u2 : String) (st : ConcState) : ConcAction → ConcState
  | ConcAction.read1 => { st with obs1 := find_schedule st.db sid }
  | ConcAction.read2 => { st with obs2 := find_schedule st.db sid }
  | ConcAction.commit1 => { st with db := commit_transition st.db u1 sid st.obs1 }
  | ConcAction.commit2 => { st with db := commit_transition st.db u2 sid st.obs2 }

/-- Run one interleaving of the two concurrent completion requests. -/
def conc_run (sid : Nat) (u1 u2 : String) (st : ConcState) :
    List ConcAction → ConcState
  | [] => st
  | a :: rest => conc_run sid u1 u2 (conc_step sid u1 u2 st a) rest

/-!
Helper lemmas characterising the route.
-/

/-- On a failure-free authorized run with a recognized status against an
existing non-terminal schedule, the route succeeds and the final state is
`apply_transition`. -/
theorem update_success (db : DB) (user role : String) (sid : Nat) (ns : String)
    (s : Schedule)
    (hrole : can_edit_data role = true)
    (hns : VALID_STATUSES.contains ns = true)
    (hfind : find_schedule db sid = some s)
    (hc : s.status ≠ "completed") (hx : s.status ≠ "canceled") :
    update_schedule_status db user role sid ns none =
      (apply_transition db user sid ns s, UpdateResult.ok) := by
  unfold update_schedule_status
  rw [hfind]
  simp [hrole, hns, hc, hx]
  exact List.mem_of_elem_eq_true hns

/-- Ports of the final state of a successful run. -/
theorem apply_transition_ports (db : DB) (u : String) (sid : Nat) (ns : String)
    (s : Schedule) :
    (apply_transition db u sid ns s).ports =
      (if ns = "completed" then completed_stock_writes db s else db).ports := rfl

/-- Plants of the final state of a successful run. -/
theorem apply_transition_plants (db : DB) (u : String) (sid : Nat) (ns : String)
    (s : Schedule) :
    (apply_transition db u sid ns s).plants =
      (if ns = "completed" then completed_stock_writes db s else db).plants := rfl

/-- Schedules of the final state of a successful run. -/
theorem apply_transition_schedules (db : DB) (u : String) (sid : Nat) (ns : String)
    (s : Schedule) :
    (apply_transition db u sid ns s).schedules =
      set_status
        (if ns = "completed" then completed_stock_writes db s else db).schedules
        sid ns := rfl

/-- Stock writes of completing a `port-to-plant` schedule. -/
theorem completed_stock_writes_p2p (db : DB) (s : Schedule)
    (h : s.type = "port-to-plant") :
    completed_stock_writes db s =
      { db with
        ports := update_stock db.ports (-s.quantity) s.port_id
        plants := update_stock db.plants s.quantity s.plant_id } := by
  unfold completed_stock_writes
  rw [h, if_neg (by decide), if_pos rfl]

/-- Stock writes of completing a `vessel-to-port` schedule. -/
theorem completed_stock_writes_v2p (db : DB) (s : Schedule)
    (h : s.type = "vessel-to-port") :
    completed_stock_writes db s =
      { db with ports := update_stock db.ports s.quantity s.port_id } := by
  unfold completed_stock_writes
  rw [h, if_pos rfl]

/-- Stock writes of completing a schedule of any other type: none. -/
theorem completed_stock_writes_other (db : DB) (s : Schedule)
    (h1 : s.type ≠ "vessel-to-port") (h2 : s.type ≠ "port-to-plant") :
    completed_stock_writes db s = db := by
  unfold completed_stock_writes
  rw [if_neg h1, if_neg h2]

/-- Row i of an `update_stock` result. -/
theorem update_stock_getElem (rows : List Entity) (d : Int) (eid : Option Nat)
    (i : Nat) :
    (update_stock rows d eid)[i]? =
      (rows[i]?).map (fun e =>
        if some e.id = eid then { e with current_stock := e.current_stock + d }
        else e) := by
  unfold update_stock
  exact List.getElem?_map ..

/-- Row i of a `set_status` result. -/
theorem set_status_getElem (rows : List Schedule) (sid : Nat) (st : String)
    (i : Nat) :
    (set_status rows sid st)[i]? =
      (rows[i]?).map (fun s => if s.id = sid then { s with status := st } else s) := by
  unfold set_status
  exact List.getElem?_map ..

/-!
Concrete sample data, following the seed rows of `init_db_logic`
(src/app.py lines 164-191), plus one extra non-terminal `port-to-plant`
schedule (#4) used to exercise that branch.
-/

/-- Seed schedule #1: `vessel-to-port`, quantity 5000, port 1, `scheduled`. -/
def sched1 : Schedule :=
  ⟨1, "vessel-to-port", some 1, some 1, none, some 1, none, 5000, "2025-10-17", "scheduled", "system"⟩

/-- Seed schedule #2: `port-to-plant`, quantity 2000, port 2, plant 1, already `completed`. -/
def sched2 : Schedule :=
  ⟨2, "port-to-plant", some 1, some 2, some 1, none, some 1, 2000, "2025-10-02", "completed", "system"⟩

/-- Seed schedule #3: `vessel-to-port`, quantity 7500, port 2, `in-progress`. -/
def sched3 : Schedule :=
  ⟨3, "vessel-to-port", some 1, some 2, none, some 1, none, 7500, "2025-10-14", "in-progress", "system"⟩

/-- Extra schedule #4: `port-to-plant`, quantity 2000, port 2, plant 1, `scheduled`. -/
def sched4 : Schedule :=
  ⟨4, "port-to-plant", some 1, some 2, some 1, none, some 1, 2000, "2025-10-20", "scheduled", "system"⟩

/-- Sample database with the seed ports, plants and schedules. -/
def seedDB : DB :=
  { ports := [⟨1, "Port X", 10000, 5000⟩, ⟨2, "Port Y", 15000, 8000⟩]
    plants := [⟨1, "Plant 1", 5000, 2000⟩, ⟨2, "Plant 2", 7000, 3000⟩]
    schedules := [sched1, sched2, sched3, sched4]
    user_activities := [] }

/-!
Claim theorems.
-/

/-- C3: completing a non-terminal `port-to-plant` schedule of quantity Q
succeeds, decreases each port row referenced by the schedule by exactly Q
and increases each referenced plant row by exactly Q, leaves every other
port and plant row's stock unchanged, and the sum of the referenced
port/plant pair's stocks is unchanged. -/
theorem port_to_plant_completion_moves_quantity
    (db : DB) (user role : String) (sid : Nat) (s : Schedule)
    (hrole : can_edit_data role = true)
    (hfind : find_schedule db sid = some s)
    (hc : s.status ≠ "completed") (hx : s.status ≠ "canceled")
    (ht : s.type = "port-to-plant") :
    (update_schedule_status db user role sid "completed" none).2 = UpdateResult.ok ∧
    (∀ i : Nat,
      ((update_schedule_status db user role sid "completed" none).1.ports[i]?).map
          Entity.current_stock =
        (db.ports[i]?).map (fun e =>
          if some e.id = s.port_id then e.current_stock - s.quantity
          else e.current_stock)) ∧
    (∀ i : Nat,
      ((update_schedule_status db user role sid "completed" none).1.plants[i]?).map
          Entity.current_stock =
        (db.plants[i]?).map (fun e =>
          if some e.id = s.plant_id then e.current_stock + s.quantity
          else e.current_stock)) ∧
    (∀ i j : Nat, ∀ e f : Entity,
      db.ports[i]? = some e → some e.id = s.port_id →
      db.plants[j]? = some f → some f.id = s.plant_id →
      ∃ e2 f2 : Entity,
        (update_schedule_status db user role sid "completed" none).1.ports[i]? = some e2 ∧
        (update_schedule_status db user role sid "completed" none).1.plants[j]? = some f2 ∧
        e2.current_stock + f2.current_stock = e.current_stock + f.current_stock) := by
  have hmain := update_success db user role sid "completed" s hrole (by decide) hfind hc hx
  have hports : (update_schedule_status db user role sid "completed" none).1.ports =
      update_stock db.ports (-s.quantity) s.port_id := by
    rw [hmain]
    show (apply_transition db user sid "completed" s).ports = _
    rw [apply_transition_ports, if_pos rfl, completed_stock_writes_p2p db s ht]
  have hplants : (update_schedule_status db user role sid "completed" none).1.plants =
      update_stock db.plants s.quantity s.plant_id := by
    rw [hmain]
    show (apply_transition db user sid "completed" s).plants = _
    rw [apply_transition_plants, if_pos rfl, completed_stock_writes_p2p db s ht]
  refine ⟨by rw [hmain], ?_, ?_, ?_⟩
  · intro i
    rw [hports, update_stock_getElem]
    cases db.ports[i]? with
    | none => rfl
    | some e =>
      simp only [Option.map_some']
      by_cases hp : some e.id = s.port_id
      · rw [if_pos hp, if_pos hp]
        simp [sub_eq_add_neg]
      · rw [if_neg hp, if_neg hp]
  · intro i
    rw [hplants, update_stock_getElem]
    cases db.plants[i]? with
    | none => rfl
    | some e =>
      simp only [Option.map_some']
      by_cases hp : some e.id = s.plant_id
      · rw [if_pos hp, if_pos hp]
      · rw [if_neg hp, if_neg hp]
  · intro i j e f hpi hpe hpj hpf
    refine ⟨{ e with current_stock := e.current_stock + -s.quantity },
            { f with current_stock := f.current_stock + s.quantity }, ?_, ?_, ?_⟩
    · rw [hports, update_stock_getElem, hpi, Option.map_some', if_pos hpe]
    · rw [hplants, update_stock_getElem, hpj, Option.map_some', if_pos hpf]
    · show e.current_stock + -s.quantity + (f.current_stock + s.quantity) =
        e.current_stock + f.current_stock
      ring

/-- C3 witness: schedule #4 of the sample database, quantity 2000 from
port 2 (stock 8000) to plant 1 (stock 2000). -/
theorem port_to_plant_completion_moves_quantity_witness :
    (can_edit_data "manager" = true ∧
     find_schedule seedDB 4 = some sched4 ∧
     sched4.status ≠ "completed" ∧ sched4.status ≠ "canceled" ∧
     sched4.type = "port-to-plant") ∧
    ((update_schedule_status seedDB "manager@example.com" "manager" 4 "completed" none).2 =
        UpdateResult.ok ∧
    (∀ i : Nat,
      ((update_schedule_status seedDB "manager@example.com" "manager" 4 "completed" none).1.ports[i]?).map
          Entity.current_stock =
        (seedDB.ports[i]?).map (fun e =>
          if some e.id = sched4.port_id then e.current_stock - sched4.quantity
          else e.current_stock)) ∧
    (∀ i : Nat,
      ((update_schedule_status seedDB "manager@example.com" "manager" 4 "completed" none).1.plants[i]?).map
          Entity.current_stock =
        (seedDB.plants[i]?).map (fun e =>
          if some e.id = sched4.plant_id then e.current_stock + sched4.quantity
          else e.current_stock)) ∧
    (∀ i j : Nat, ∀ e f : Entity,
      seedDB.ports[i]? = some e → some e.id = sched4.port_id →
      seedDB.plants[j]? = some f → some f.id = sched4.plant_id →
      ∃ e2 f2 : Entity,
        (update_schedule_status seedDB "manager@example.com" "manager" 4 "completed" none).1.ports[i]? = some e2 ∧
        (update_schedule_status seedDB "manager@example.com" "manager" 4 "completed" none).1.plants[j]? = some f2 ∧
        e2.current_stock + f2.current_stock = e.current_stock + f.current_stock)) :=
  ⟨⟨by decide, by decide, by decide, by decide, by decide⟩,
   port_to_plant_completion_moves_quantity seedDB "manager@example.com" "manager" 4 sched4
     (by decide) (by decide) (by decide) (by decide) (by decide)⟩

/-- C4: completing a non-terminal `vessel-to-port` schedule of quantity Q
succeeds, increases each port row referenced by the schedule by exactly Q,
leaves every other port row and every plant row unchanged, and writes
`completed` into the schedule's status. -/
theorem vessel_to_port_completion_adds_quantity
    (db : DB) (user role : String) (sid : Nat) (s : Schedule)
    (hrole : can_edit_data role = true)
    (hfind : find_schedule db sid = some s)
    (hc : s.status ≠ "completed") (hx : s.status ≠ "canceled")
    (ht : s.type = "vessel-to-port") :
    (update_schedule_status db user role sid "completed" none).2 = UpdateResult.ok ∧
    (∀ i : Nat,
      ((update_schedule_status db user role sid "completed" none).1.ports[i]?).map
          Entity.current_stock =
        (db.ports[i]?).map (fun e =>
          if some e.id = s.port_id then e.current_stock + s.quantity
          else e.current_stock)) ∧
    (update_schedule_status db user role sid "completed" none).1.plants = db.plants ∧
    (∀ i : Nat,
      (update_schedule_status db user role sid "completed" none).1.schedules[i]? =
        (db.schedules[i]?).map (fun t =>
          if t.id = sid then { t with status := "completed" } else t)) := by
  have hmain := update_success db user role sid "completed" s hrole (by decide) hfind hc hx
  have hports : (update_schedule_status db user role sid "completed" none).1.ports =
      update_stock db.ports s.quantity s.port_id := by
    rw [hmain]
    show (apply_transition db user sid "completed" s).ports = _
    rw [apply_transition_ports, if_pos rfl, completed_stock_writes_v2p db s ht]
  refine ⟨by rw [hmain], ?_, ?_, ?_⟩
  · intro i
    rw [hports, update_stock_getElem]
    cases db.ports[i]? with
    | none => rfl
    | some e =>
      simp only [Option.map_some']
      by_cases hp : some e.id = s.port_id
      · rw [if_pos hp, if_pos hp]
      · rw [if_neg hp, if_neg hp]
  · rw [hmain]
    show (apply_transition db user sid "completed" s).plants = _
    rw [apply_transition_plants, if_pos rfl, completed_stock_writes_v2p db s ht]
  · intro i
    rw [hmain]
    show (set_status
      (if "completed" = "completed" then completed_stock_writes db s else db).schedules
      sid "completed")[i]? = _
    rw [if_pos rfl, completed_stock_writes_v2p db s ht, set_status_getElem]

/-- C4 witness: schedule #1 of the sample database (the scenario of the
specification: quantity 5000 into port 1 whose stock is 5000). -/
theorem vessel_to_port_completion_adds_quantity_witness :
    (can_edit_data "manager" = true ∧
     find_schedule seedDB 1 = some sched1 ∧
     sched1.status ≠ "completed" ∧ sched1.status ≠ "canceled" ∧
     sched1.type = "vessel-to-port") ∧
    ((update_schedule_status seedDB "manager@example.com" "manager" 1 "completed" none).2 =
        UpdateResult.ok ∧
    (∀ i : Nat,
      ((update_schedule_status seedDB "manager@example.com" "manager" 1 "completed" none).1.ports[i]?).map
          Entity.current_stock =
        (seedDB.ports[i]?).map (fun e =>
          if some e.id = sched1.port_id then e.current_stock + sched1.quantity
          else e.current_stock)) ∧
    (update_schedule_status seedDB "manager@example.com" "manager" 1 "completed" none).1.plants =
        seedDB.plants ∧
    (∀ i : Nat,
      (update_schedule_status seedDB "manager@example.com" "manager" 1 "completed" none).1.schedules[i]? =
        (seedDB.schedules[i]?).map (fun t =>
          if t.id = 1 then { t with status := "completed" } else t))) :=
  ⟨⟨by decide, by decide, by decide, by decide, by decide⟩,
   vessel_to_port_completion_adds_quantity seedDB "manager@example.com" "manager" 1 sched1
     (by decide) (by decide) (by decide) (by decide) (by decide)⟩

/-- C8: an authorized transition of a non-terminal schedule to a recognized
status other than `completed` succeeds, leaves every port row and every
plant row untouched, and rewrites only the `status` field of the schedule
rows matching the id, leaving every other schedule row and field unchanged. -/
theorem non_completed_transition_writes_status_only
    (db : DB) (user role : String) (sid : Nat) (ns : String) (s : Schedule)
    (hrole : can_edit_data role = true)
    (hns : VALID_STATUSES.contains ns = true)
    (hnc : ns ≠ "completed")
    (hfind : find_schedule db sid = some s)
    (hc : s.status ≠ "completed") (hx : s.status ≠ "canceled") :
    (update_schedule_status db user role sid ns none).2 = UpdateResult.ok ∧
    (update_schedule_status db user role sid ns none).1.ports = db.ports ∧
    (update_schedule_status db user role sid ns none).1.plants = db.plants ∧
    (∀ i : Nat,
      (update_schedule_status db user role sid ns none).1.schedules[i]? =
        (db.schedules[i]?).map (fun t =>
          if t.id = sid then { t with status := ns } else t)) := by
  have hmain := update_success db user role sid ns s hrole hns hfind hc hx
  refine ⟨by rw [hmain], ?_, ?_, ?_⟩
  · rw [hmain]
    show (apply_transition db user sid ns s).ports = _
    rw [apply_transition_ports, if_neg hnc]
  · rw [hmain]
    show (apply_transition db user sid ns s).plants = _
    rw [apply_transition_plants, if_neg hnc]
  · intro i
    rw [hmain]
    show (set_status
      (if ns = "completed" then completed_stock_writes db s else db).schedules
      sid ns)[i]? = _
    rw [if_neg hnc, set_status_getElem]

/-- C8 witness: schedule #3 of the sample database moved to `delayed`. -/
theorem non_completed_transition_writes_status_only_witness :
    (can_edit_data "manager" = true ∧
     VALID_STATUSES.contains "delayed" = true ∧
     "delayed" ≠ "completed" ∧
     find_schedule seedDB 3 = some sched3 ∧
     sched3.status ≠ "completed" ∧ sched3.status ≠ "canceled") ∧
    ((update_schedule_status seedDB "manager@example.com" "manager" 3 "delayed" none).2 =
        UpdateResult.ok ∧
    (update_schedule_status seedDB "manager@example.com" "manager" 3 "delayed" none).1.ports =
        seedDB.ports ∧
    (update_schedule_status seedDB "manager@example.com" "manager" 3 "delayed" none).1.plants =
        seedDB.plants ∧
    (∀ i : Nat,
      (update_schedule_status seedDB "manager@example.com" "manager" 3 "delayed" none).1.schedules[i]? =
        (seedDB.schedules[i]?).map (fun t =>
          if t.id = 3 then { t with status := "delayed" } else t))) :=
  ⟨⟨by decide, by decide, by decide, by decide, by decide, by decide⟩,
   non_completed_transition_writes_status_only seedDB "manager@example.com" "manager" 3 "delayed"
     sched3 (by decide) (by decide) (by decide) (by decide) (by decide) (by decide)⟩

/-- C10: completing a non-terminal schedule whose type is neither
`vessel-to-port` nor `port-to-plant` nevertheless succeeds: the status is
written to `completed` and no port or plant row changes (the `if`/`elif`
of lines 340-344 falls through silently). -/
theorem unknown_type_completion_no_stock_effect
    (db : DB) (user role : String) (sid : Nat) (s : Schedule)
    (hrole : can_edit_data role = true)
    (hfind : find_schedule db sid = some s)
    (hc : s.status ≠ "completed") (hx : s.status ≠ "canceled")
    (ht1 : s.type ≠ "vessel-to-port") (ht2 : s.type ≠ "port-to-plant") :
    (update_schedule_status db user role sid "completed" none).2 = UpdateResult.ok ∧
    (update_schedule_status db user role sid "completed" none).1.ports = db.ports ∧
    (update_schedule_status db user role sid "completed" none).1.plants = db.plants ∧
    (∀ i : Nat,
      (update_schedule_status db user role sid "completed" none).1.schedules[i]? =
        (db.schedules[i]?).map (fun t =>
          if t.id = sid then { t with status := "completed" } else t)) := by
  have hmain := update_success db user role sid "completed" s hrole (by decide) hfind hc hx
  have hw := completed_stock_writes_other db s ht1 ht2
  refine ⟨by rw [hmain], ?_, ?_, ?_⟩
  · rw [hmain]
    show (apply_transition db user sid "completed" s).ports = _
    rw [apply_transition_ports, if_pos rfl, hw]
  · rw [hmain]
    show (apply_transition db user sid "completed" s).plants = _
    rw [apply_transition_plants, if_pos rfl, hw]
  · intro i
    rw [hmain]
    show (set_status
      (if "completed" = "completed" then completed_stock_writes db s else db).schedules
      sid "completed")[i]? = _
    rw [if_pos rfl, hw, set_status_getElem]

/-- Schedule with a type the completion branch does not recognize. -/
def sched9 : Schedule :=
  ⟨9, "rail-transfer", some 1, some 1, some 1, none, some 1, 1000, "2025-11-01", "scheduled", "system"⟩

/-- Sample database holding only the unrecognized-type schedule. -/
def oddTypeDB : DB :=
  { ports := [⟨1, "Port X", 10000, 5000⟩]
    plants := [⟨1, "Plant 1", 5000, 2000⟩]
    schedules := [sched9]
    user_activities := [] }

/-- C10 witness: completing the `rail-transfer` schedule succeeds and
touches no stock. -/
theorem unknown_type_completion_no_stock_effect_witness :
    (can_edit_data "admin" = true ∧
     find_schedule oddTypeDB 9 = some sched9 ∧
     sched9.status ≠ "completed" ∧ sched9.status ≠ "canceled" ∧
     sched9.type ≠ "vessel-to-port" ∧ sched9.type ≠ "port-to-plant") ∧
    ((update_schedule_status oddTypeDB "admin@example.com" "admin" 9 "completed" none).2 =
        UpdateResult.ok ∧
    (update_schedule_status oddTypeDB "admin@example.com" "admin" 9 "completed" none).1.ports =
        oddTypeDB.ports ∧
    (update_schedule_status oddTypeDB "admin@example.com" "admin" 9 "completed" none).1.plants =
        oddTypeDB.plants ∧
    (∀ i : Nat,
      (update_schedule_status oddTypeDB "admin@example.com" "admin" 9 "completed" none).1.schedules[i]? =
        (oddTypeDB.schedules[i]?).map (fun t =>
          if t.id = 9 then { t with status := "completed" } else t))) :=
  ⟨⟨by decide, by decide, by decide, by decide, by decide, by decide⟩,
   unknown_type_completion_no_stock_effect oddTypeDB "admin@example.com" "admin" 9 sched9
     (by decide) (by decide) (by decide) (by decide) (by decide) (by decide)⟩

/-- C2 (amended): a terminal schedule rejects every transition attempt with
a RECOGNIZED new status as InvalidTransition, leaving the database exactly
unchanged; an unrecognized new status is instead rejected as InvalidStatus
(the check of line 326 runs first), also leaving the database unchanged. -/
theorem terminal_schedule_rejects_transitions
    (db : DB) (user role : String) (sid : Nat) (ns : String) (s : Schedule)
    (hrole : can_edit_data role = true)
    (hfind : find_schedule db sid = some s)
    (hterm : s.status = "completed" ∨ s.status = "canceled") :
    update_schedule_status db user role sid ns none =
      (db, if VALID_STATUSES.contains ns then UpdateResult.invalidTransition
           else UpdateResult.invalidStatus) := by
  unfold update_schedule_status
  by_cases hns : VALID_STATUSES.contains ns = true
  · have hmem : ns ∈ VALID_STATUSES := List.mem_of_elem_eq_true hns
    rw [hfind]
    rcases hterm with h | h <;> simp [hrole, hns, hmem, h]
  · have hnmem : ¬ ns ∈ VALID_STATUSES := fun hm => hns (List.elem_eq_true_of_mem hm)
    simp [hrole, hns, hnmem]

/-- C2 witness: the specification's scenario — schedule #2 is already
`completed`; moving it to `in-progress` fails with InvalidTransition and
the database (stocks 8000/2000 included) is exactly as before. -/
theorem terminal_schedule_rejects_transitions_witness :
    (can_edit_data "manager" = true ∧
     find_schedule seedDB 2 = some sched2 ∧
     (sched2.status = "completed" ∨ sched2.status = "canceled")) ∧
    update_schedule_status seedDB "manager@example.com" "manager" 2 "in-progress" none =
      (seedDB, if VALID_STATUSES.contains "in-progress" then UpdateResult.invalidTransition
               else UpdateResult.invalidStatus) :=
  ⟨⟨by decide, by decide, by decide⟩,
   terminal_schedule_rejects_transitions seedDB "manager@example.com" "manager" 2 "in-progress"
     sched2 (by decide) (by decide) (by decide)⟩

/-- C2 counterexample: an attempt on the terminal schedule #2 with the
unrecognized status value fails with InvalidStatus, not InvalidTransition,
because the status-validity check of line 326 runs before the terminal
check of line 335. -/
theorem terminal_schedule_unrecognized_status_counterexample :
    update_schedule_status seedDB "manager@example.com" "manager" 2 "not-a-status" none =
      (seedDB, UpdateResult.invalidStatus) ∧
    UpdateResult.invalidStatus ≠ UpdateResult.invalidTransition := by
  decide

/-- C5 (amended): an unknown schedule id fails with NotFound for every
RECOGNIZED new status; for an unrecognized new status the route fails with
InvalidStatus instead, because the check of line 326 precedes the fetch of
line 332.  The database is unchanged either way. -/
theorem unknown_schedule_notfound_for_recognized_status
    (db : DB) (user role : String) (sid : Nat) (ns : String)
    (hrole : can_edit_data role = true)
    (hfind : find_schedule db sid = none) :
    update_schedule_status db user role sid ns none =
      (db, if VALID_STATUSES.contains ns then UpdateResult.notFound
           else UpdateResult.invalidStatus) := by
  unfold update_schedule_status
  by_cases hns : VALID_STATUSES.contains ns = true
  · have hmem : ns ∈ VALID_STATUSES := List.mem_of_elem_eq_true hns
    rw [hfind]
    simp [hrole, hns, hmem]
  · have hnmem : ¬ ns ∈ VALID_STATUSES := fun hm => hns (List.elem_eq_true_of_mem hm)
    simp [hrole, hns, hnmem]

/-- C5 witness: id 99 is unknown in the sample database; a `completed`
request fails with NotFound. -/
theorem unknown_schedule_notfound_for_recognized_status_witness :
    (can_edit_data "manager" = true ∧
     find_schedule seedDB 99 = none) ∧
    update_schedule_status seedDB "manager@example.com" "manager" 99 "completed" none =
      (seedDB, if VALID_STATUSES.contains "completed" then UpdateResult.notFound
               else UpdateResult.invalidStatus) :=
  ⟨⟨by decide, by decide⟩,
   unknown_schedule_notfound_for_recognized_status seedDB "manager@example.com" "manager" 99
     "completed" (by decide) (by decide)⟩

/-- C5 counterexample: for an unknown id AND an unrecognized status value
the route fails with InvalidStatus, not NotFound: the NotFound check does
not precede the InvalidStatus check. -/
theorem unknown_schedule_unrecognized_status_counterexample :
    update_schedule_status seedDB "manager@example.com" "manager" 99 "not-a-status" none =
      (seedDB, UpdateResult.invalidStatus) ∧
    UpdateResult.invalidStatus ≠ UpdateResult.notFound := by
  decide

/-- Bounds check `0 <= current_stock <= capacity` for one port/plant row. -/
def within_bounds (e : Entity) : Bool :=
  decide (0 ≤ e.current_stock) && decide (e.current_stock ≤ e.capacity)

/-- The stock invariant of the specification, over every port and plant row. -/
def stock_invariant (db : DB) : Bool :=
  db.ports.all within_bounds && db.plants.all within_bounds

/-- Non-terminal `port-to-plant` schedule whose quantity 2000 exceeds the
stock 1000 of the port it draws from. -/
def schedLow : Schedule :=
  ⟨1, "port-to-plant", some 1, some 1, some 1, none, some 1, 2000, "2025-11-05", "scheduled", "system"⟩

/-- Sample database satisfying the stock invariant but holding `schedLow`. -/
def lowStockDB : DB :=
  { ports := [⟨1, "Port X", 10000, 1000⟩]
    plants := [⟨1, "Plant 1", 5000, 2000⟩]
    schedules := [schedLow]
    user_activities := [] }

/-- C6 counterexample: a database satisfying the stock invariant on which a
single successful completion drives a port's current_stock negative — the
completion branch (lines 338-344) applies the delta with no bounds check,
so the invariant is NOT preserved. -/
theorem stock_invariant_violated_by_completion :
    stock_invariant lowStockDB = true ∧
    (update_schedule_status lowStockDB "manager@example.com" "manager" 1 "completed" none).2 =
      UpdateResult.ok ∧
    stock_invariant
      (update_schedule_status lowStockDB "manager@example.com" "manager" 1 "completed" none).1 =
      false := by
  decide

/-- C6 (amended): the completion transition applies the stock delta with no
bounds guard: completing a non-terminal `port-to-plant` schedule succeeds
even when the quantity exceeds the referenced port's current_stock, and the
port row is left with a NEGATIVE current_stock.  The invariant
`0 <= current_stock <= capacity` is therefore not preserved by the code. -/
theorem completion_applies_delta_without_bounds_guard
    (db : DB) (user role : String) (sid : Nat) (s : Schedule) (i : Nat) (e : Entity)
    (hrole : can_edit_data role = true)
    (hfind : find_schedule db sid = some s)
    (hc : s.status ≠ "completed") (hx : s.status ≠ "canceled")
    (ht : s.type = "port-to-plant")
    (hrow : db.ports[i]? = some e) (hid : some e.id = s.port_id)
    (hlt : e.current_stock < s.quantity) :
    (update_schedule_status db user role sid "completed" none).2 = UpdateResult.ok ∧
    (update_schedule_status db user role sid "completed" none).1.ports[i]? =
      some { e with current_stock := e.current_stock - s.quantity } ∧
    e.current_stock - s.quantity < 0 := by
  have hmain := update_success db user role sid "completed" s hrole (by decide) hfind hc hx
  have hports : (update_schedule_status db user role sid "completed" none).1.ports =
      update_stock db.ports (-s.quantity) s.port_id := by
    rw [hmain]
    show (apply_transition db user sid "completed" s).ports = _
    rw [apply_transition_ports, if_pos rfl, completed_stock_writes_p2p db s ht]
  refine ⟨by rw [hmain], ?_, by omega⟩
  rw [hports, update_stock_getElem, hrow, Option.map_some', if_pos hid, sub_eq_add_neg]

/-- C6 witness for the amended claim: the port of `lowStockDB` ends at
stock -1000 while the completion reports success. -/
theorem completion_applies_delta_without_bounds_guard_witness :
    (can_edit_data "manager" = true ∧
     find_schedule lowStockDB 1 = some schedLow ∧
     schedLow.status ≠ "completed" ∧ schedLow.status ≠ "canceled" ∧
     schedLow.type = "port-to-plant" ∧
     lowStockDB.ports[0]? = some ⟨1, "Port X", 10000, 1000⟩ ∧
     some (1 : Nat) = schedLow.port_id ∧
     (1000 : Int) < schedLow.quantity) ∧
    ((update_schedule_status lowStockDB "manager@example.com" "manager" 1 "completed" none).2 =
        UpdateResult.ok ∧
    (update_schedule_status lowStockDB "manager@example.com" "manager" 1 "completed" none).1.ports[0]? =
      some { id := 1, name := "Port X", capacity := 10000,
             current_stock := (1000 : Int) - schedLow.quantity } ∧
    (1000 : Int) - schedLow.quantity < 0) :=
  ⟨⟨by decide, by decide, by decide, by decide, by decide, by decide, by decide, by decide⟩,
   completion_applies_delta_without_bounds_guard lowStockDB "manager@example.com" "manager" 1
     schedLow 0 ⟨1, "Port X", 10000, 1000⟩
     (by decide) (by decide) (by decide) (by decide) (by decide) (by decide) (by decide) (by decide)⟩

/-- C1: the completion transition does NOT commit as a single atomic unit.
A storage failure at a statement before `log_activity` (here: the activity
INSERT itself) does roll back fully: the route returns the 500 response with
the database unchanged.  But a failure at the schedules UPDATE of line 349
leaves PARTIAL state: `log_activity` already ran `conn.commit()`
(src/app.py line 211) on the shared connection, so the stock delta of
schedule #1 (port 1: 5000 -> 10000) is durably committed while the
schedule's status is still `scheduled`. -/
theorem completion_failure_after_log_commit_leaves_partial_state :
    (update_schedule_status seedDB "manager@example.com" "manager" 1 "completed"
        (some Step.insertActivityRow) =
      (seedDB, UpdateResult.internalError)) ∧
    ((update_schedule_status seedDB "manager@example.com" "manager" 1 "completed"
        (some Step.updScheduleRow)).2 = UpdateResult.internalError) ∧
    ((update_schedule_status seedDB "manager@example.com" "manager" 1 "completed"
        (some Step.updScheduleRow)).1.ports.map Entity.current_stock =
      [10000, 8000]) ∧
    ((update_schedule_status seedDB "manager@example.com" "manager" 1 "completed"
        (some Step.updScheduleRow)).1.schedules.map Schedule.status =
      ["scheduled", "completed", "in-progress", "scheduled"]) := by
  decide

/-- C7: two concurrent completion requests on schedule #1 can BOTH apply the
stock delta.  Run serially (first request reads and commits before the
second reads), the second request observes the terminal status and the delta
is applied once: port 1 ends at 10000.  But in the interleaving where both
SELECTs run before either commit — possible because line 332 is a plain
SELECT with no FOR UPDATE and the UPDATEs never re-check the status — both
requests observe `scheduled` and both apply the delta: port 1 ends at 15000. -/
theorem concurrent_completions_double_apply :
    ((conc_run 1 "manager@example.com" "admin@example.com" ⟨seedDB, none, none⟩
        [ConcAction.read1, ConcAction.commit1, ConcAction.read2, ConcAction.commit2]).db.ports.map
      Entity.current_stock = [10000, 8000]) ∧
    ((conc_run 1 "manager@example.com" "admin@example.com" ⟨seedDB, none, none⟩
        [ConcAction.read1, ConcAction.read2, ConcAction.commit1, ConcAction.commit2]).db.ports.map
      Entity.current_stock = [15000, 8000]) := by
  decide

/-- C9: for every data-type identifier other than `schedules` and
`stock_levels` the export route rejects the request and no SQL query is
handed to `execute_query`; for exactly those two identifiers it runs the
single SELECT over the corresponding table and returns its CSV. -/
theorem export_data_guard (dt : String) :
    (EXPORT_TABLES.contains dt = false →
      export_data true dt = (ExportResult.invalidDataType, [])) ∧
    (EXPORT_TABLES.contains dt = true →
      export_data true dt = (ExportResult.csvFile dt, ["SELECT * FROM " ++ dt])) := by
  constructor
  · intro h
    have hn : ¬ dt ∈ EXPORT_TABLES := by simpa using h
    unfold export_data
    simp [h, hn]
  · intro h
    have hm : dt ∈ EXPORT_TABLES := by simpa using h
    unfold export_data
    simp [h, hm]

/-- C9 witness: `users` is rejected with no query executed; `schedules` is
exported with exactly its SELECT. -/
theorem export_data_guard_witness :
    (EXPORT_TABLES.contains "users" = false ∧
     export_data true "users" = (ExportResult.invalidDataType, [])) ∧
    (EXPORT_TABLES.contains "schedules" = true ∧
     export_data true "schedules" =
       (ExportResult.csvFile "schedules", ["SELECT * FROM schedules"])) :=
  ⟨⟨by decide, (export_data_guard "users").1 (by decide)⟩,
   ⟨by decide, (export_data_guard "schedules").2 (by decide)⟩⟩
